import Mathlib

/-!
Shallow embedding of `snappy_device_agents/devices/maas2/maas_storage.py`
(class `ConfigureMaasStorage`) and proofs about the claims of its
specification.

Conventions:
* Python runtime values are modelled by `PyVal` (None, int, str, list, dict
  with string keys — all dictionaries appearing in this module are keyed by
  strings).
* Python dynamic failures (AttributeError, TypeError, KeyError, ValueError,
  NameError, IndexError), the `ProvisioningError` raised by `call_cmd`, and
  plain `Exception` are modelled by `Err`.
* The external `maas` CLI processes spawned by `subprocess.run` are modelled
  by an oracle: a FIFO list of pending `Resp` responses (return code and
  combined captured stdout/stderr) held in the state `S` together with the
  trace of commands issued so far.  Stateful methods are state-passing
  functions `S → Except Err α × S`; the issued-command trace survives a
  raised error, exactly as the already-spawned processes do.
* CPython `float` arithmetic (IEEE-754 binary64, round to nearest, ties to
  even) is modelled exactly over `ℚ` by `roundDouble`; overflow to infinity
  and subnormal underflow are outside every input considered here and are
  not modelled.
-/

namespace MaasStorage

/-- Python runtime values (the JSON-shaped data this module manipulates). -/
inductive PyVal where
  | none : PyVal
  | int (n : ℤ) : PyVal
  | str (s : String) : PyVal
  | list (xs : List PyVal) : PyVal
  | dict (kvs : List (String × PyVal)) : PyVal

/-- Python exceptions that the embedded code can raise. -/
inductive Err where
  | provisioningError (output : String)
  | attributeError (attr : String)
  | typeError (msg : String)
  | keyError (key : String)
  | valueError (msg : String)
  | nameError (name : String)
  | indexError (msg : String)
  | pyException (msg : String)
deriving DecidableEq

/-- One external process outcome: exit status and captured stdout+stderr. -/
structure Resp where
  returncode : ℤ
  stdout : String

/-- Execution state: commands issued so far (each a Python list of argument
values) and the pending oracle responses, consumed first-in first-out. -/
structure S where
  trace : List (List PyVal)
  responses : List Resp

/-- State-and-error monad for the embedded methods.  Unlike `StateT _ (Except _)`,
a raised error preserves the state, so the command trace at the moment of
failure is observable. -/
def M (α : Type) : Type := S → Except Err α × S

instance : Monad M where
  pure a := fun s => (.ok a, s)
  bind x f := fun s =>
    match x s with
    | (.ok a, s') => f a s'
    | (.error e, s') => (.error e, s')

/-- Raise a Python exception. -/
def throwE {α : Type} (e : Err) : M α := fun s => (.error e, s)

/-- Lift a pure fallible computation. -/
def liftE {α : Type} (r : Except Err α) : M α := fun s => (r, s)

def getS : M S := fun s => (.ok s, s)

def setS (s' : S) : M Unit := fun _ => (.ok (), s')

/-! ### Python primitive helpers -/

/-- Decimal digits of a natural number, most significant first (fuel-based
structural recursion so that the kernel can evaluate it; `n + 1` units of
fuel always suffice since the argument at least halves each step). -/
def natReprGo : ℕ → ℕ → List Char → List Char
  | 0, _, acc => acc
  | fuel + 1, n, acc =>
    if n = 0 then acc else natReprGo fuel (n / 10) (Char.ofNat (48 + n % 10) :: acc)

/-- Python `str` of a non-negative integer. -/
def pyStrOfNat (n : ℕ) : String :=
  if n = 0 then "0" else ⟨natReprGo (n + 1) n []⟩

/-- Python `str` of an integer. -/
def pyStrOfInt (n : ℤ) : String :=
  if n < 0 then "-" ++ pyStrOfNat n.natAbs else pyStrOfNat n.natAbs

/-- Python `str` of a value, for the cases occurring in this module
(f-string interpolation and `str(...)` are only ever applied to ints,
strings and None here; container reprs are never needed). -/
def pyStrOfVal : PyVal → String
  | .none => "None"
  | .int n => pyStrOfInt n
  | .str s => s
  | .list _ => "<list>"
  | .dict _ => "<dict>"

/-- Truthiness (`bool(v)`) for the value shapes used here. -/
def pyTruthy : PyVal → Bool
  | .none => false
  | .int n => n ≠ 0
  | .str s => s ≠ ""
  | .list xs => !xs.isEmpty
  | .dict kvs => !kvs.isEmpty

/-- `v is None`. -/
def pyIsNone : PyVal → Bool
  | .none => true
  | _ => false

def isStrVal : PyVal → Bool
  | .str _ => true
  | _ => false

/-- Subscripting a dict with a string key: `d[key]`. -/
def pySubscript (v : PyVal) (key : String) : Except Err PyVal :=
  match v with
  | .dict kvs =>
    match kvs.lookup key with
    | some x => .ok x
    | none => .error (.keyError key)
  | .none => .error (.typeError "NoneType object is not subscriptable")
  | _ => .error (.typeError "object is not subscriptable")

/-- Subscripting a dict with an arbitrary value key; all dicts in this module
are keyed by strings, so any non-string key is simply absent. -/
def pySubscriptV (v : PyVal) (key : PyVal) : Except Err PyVal :=
  match v with
  | .dict kvs =>
    match key with
    | .str k =>
      match kvs.lookup k with
      | some x => .ok x
      | none => .error (.keyError k)
    | _ => .error (.keyError (pyStrOfVal key))
  | .none => .error (.typeError "NoneType object is not subscriptable")
  | _ => .error (.typeError "object is not subscriptable")

/-- `d.get(key)` on a dict (None-returning lookup, no exception). -/
def pyDictGet (v : PyVal) (key : PyVal) : Option PyVal :=
  match v, key with
  | .dict kvs, .str k => kvs.lookup k
  | _, _ => Option.none

/-- `key in d` on a dict. -/
def pyDictContains (v : PyVal) (key : PyVal) : Bool :=
  (pyDictGet v key).isSome

/-- Python `str.strip()` whitespace test (ASCII subset; the size strings
considered here contain no exotic Unicode whitespace). -/
def isPySpace (c : Char) : Bool :=
  c = ' ' ∨ c = '\t' ∨ c = '\n' ∨ c = '\r' ∨ c = '\x0b' ∨ c = '\x0c'

/-- Strip leading and trailing whitespace from a character list. -/
def pyStripChars (l : List Char) : List Char :=
  ((l.dropWhile isPySpace).reverse.dropWhile isPySpace).reverse

/-- Split an optional leading sign, Python number-literal style. -/
def pySignSplit (l : List Char) : ℤ × List Char :=
  if l.head? = some '+' then (1, l.tail)
  else if l.head? = some '-' then (-1, l.tail)
  else (1, l)

/-- Value of a list of decimal digits, most significant first. -/
def decVal (l : List Char) : ℕ :=
  l.foldl (fun a c => 10 * a + (c.toNat - 48)) 0

/-- Python `int(string)`: optional surrounding whitespace, optional sign,
then a non-empty run of decimal digits (digit-separator underscores, which
`int` also accepts, are not modelled: no theorem below quantifies over
them). -/
def pyIntParse (v : String) : Except Err ℤ :=
  let t := pyStripChars v.data
  let sd := pySignSplit t
  if sd.2 ≠ [] ∧ sd.2.all Char.isDigit then
    .ok (sd.1 * decVal sd.2)
  else
    .error (.valueError ("invalid literal for int with base 10: " ++ v))

/-- `a == b` between the scalar values compared in this module (None, ints,
strings; container comparisons never occur). -/
def pyEqV : PyVal → PyVal → Bool
  | .none, .none => true
  | .int a, .int b => a == b
  | .str a, .str b => a == b
  | _, _ => false

/-- `v == "lit"` for a string literal. -/
def pyEqStrLit (v : PyVal) (lit : String) : Bool :=
  match v with
  | .str t => t = lit
  | _ => false

/-! ### Exact model of CPython `float` (IEEE-754 binary64)

A finite binary64 value is a rational `m * 2 ^ (e - 52)` with `|m| < 2 ^ 53`.
`roundDouble` sends an exact rational to the nearest such value, ties to
even — precisely the rounding CPython performs in `float(string)` and in
float multiplication.  Overflow to infinity (beyond `2 ^ 1024`) and
subnormal underflow (below `2 ^ (-1022)`) do not arise for any input
considered in this file and are not modelled. -/

/-- `|q|` (computably, without the lattice instance). -/
def pyAbs (q : ℚ) : ℚ := if q < 0 then -q else q

/-- `Nat.log2` by structural recursion on a fuel bound, so that the kernel
can evaluate it (`Nat.log2` itself is defined by well-founded recursion and
does not reduce definitionally). -/
def log2fuel : ℕ → ℕ → ℕ
  | 0, _ => 0
  | fuel + 1, n => if n ≥ 2 then log2fuel fuel (n / 2) + 1 else 0

/-- `⌊log2 n⌋` (0 at 0), kernel-evaluable. -/
def nlog2 (n : ℕ) : ℕ := log2fuel n n

/-- `⌊log2 q⌋` for `q > 0`: the unique `e` with `2 ^ e ≤ q < 2 ^ (e + 1)`,
computed from the bit lengths of numerator and denominator. -/
def qlog2floor (q : ℚ) : ℤ :=
  if 2 ^ nlog2 q.den * q.num.natAbs ≥ 2 ^ nlog2 q.num.natAbs * q.den then
    (nlog2 q.num.natAbs : ℤ) - nlog2 q.den
  else
    (nlog2 q.num.natAbs : ℤ) - nlog2 q.den - 1

/-- `⌊q⌋` (Euclidean division of numerator by the positive denominator). -/
def ratFloorZ (q : ℚ) : ℤ := Int.ediv q.num q.den

/-- Round a rational to the nearest integer, ties to even. -/
def roundHalfEven (q : ℚ) : ℤ :=
  if q - ((ratFloorZ q : ℤ) : ℚ) < 1 / 2 then ratFloorZ q
  else if 1 / 2 < q - ((ratFloorZ q : ℤ) : ℚ) then ratFloorZ q + 1
  else if ratFloorZ q % 2 = 0 then ratFloorZ q else ratFloorZ q + 1

/-- The 53-bit mantissa obtained by scaling `aq` (positive) from binade `e`
down to `[2 ^ 52, 2 ^ 53]` and rounding, ties to even. -/
def roundMant (aq : ℚ) (e : ℤ) : ℤ :=
  if e ≤ 52 then roundHalfEven (aq * ((2 ^ (52 - e).toNat : ℕ) : ℚ))
  else roundHalfEven (aq / ((2 ^ (e - 52).toNat : ℕ) : ℚ))

/-- The rational value `sgn * m * 2 ^ (e - 52)`. -/
def mkDouble (sgn : ℚ) (m : ℤ) (e : ℤ) : ℚ :=
  if e ≤ 52 then sgn * ((m : ℤ) : ℚ) / ((2 ^ (52 - e).toNat : ℕ) : ℚ)
  else sgn * ((m : ℤ) : ℚ) * ((2 ^ (e - 52).toNat : ℕ) : ℚ)

/-- Round an exact rational to the nearest binary64 value (as an exact
rational), round-to-nearest-even; when rounding overflows the mantissa to
`2 ^ 53` the value moves up one binade. -/
def roundDouble (q : ℚ) : ℚ :=
  if q = 0 then 0
  else if roundMant (pyAbs q) (qlog2floor (pyAbs q)) = 2 ^ 53 then
    mkDouble (if q < 0 then -1 else 1) (2 ^ 52) (qlog2floor (pyAbs q) + 1)
  else
    mkDouble (if q < 0 then -1 else 1) (roundMant (pyAbs q) (qlog2floor (pyAbs q)))
      (qlog2floor (pyAbs q))

/-- Exponent part of a Python float literal: `e`/`E`, optional sign,
non-empty digit run. -/
def pyFloatExp (base : ℚ) (l : List Char) : Except Err ℚ :=
  let sd := pySignSplit l
  if sd.2 ≠ [] ∧ sd.2.all Char.isDigit then
    if sd.1 < 0 then .ok (base / 10 ^ decVal sd.2) else .ok (base * 10 ^ decVal sd.2)
  else .error (.valueError "could not convert string to float")

/-- The exact rational denoted by a Python float literal
(`[sign] digits [. digits] [(e|E) [sign] digits]`; `inf`/`nan` and
digit-separator underscores are not modelled — no theorem below quantifies
over them). -/
def pyFloatLit (v : String) : Except Err ℚ := do
  let t := pyStripChars v.data
  let sd := pySignSplit t
  let ip := sd.2.takeWhile Char.isDigit
  let r1 := sd.2.dropWhile Char.isDigit
  let q ←
    match r1 with
    | [] =>
      if ip ≠ [] then pure ((decVal ip : ℚ))
      else .error (.valueError "could not convert string to float")
    | '.' :: r2 =>
      let fp := r2.takeWhile Char.isDigit
      let r3 := r2.dropWhile Char.isDigit
      if ip = [] ∧ fp = [] then .error (.valueError "could not convert string to float")
      else
        let base : ℚ := (decVal ip : ℚ) + (decVal fp : ℚ) / 10 ^ fp.length
        match r3 with
        | [] => pure base
        | c :: r4 =>
          if c = 'e' ∨ c = 'E' then pyFloatExp base r4
          else .error (.valueError "could not convert string to float")
    | c :: r4 =>
      if (c = 'e' ∨ c = 'E') ∧ ip ≠ [] then pyFloatExp ((decVal ip : ℚ)) r4
      else .error (.valueError "could not convert string to float")
  pure (sd.1 * q)

/-- Python `float(string)`: the denoted rational, rounded to binary64. -/
def pyFloatParse (v : String) : Except Err ℚ :=
  (pyFloatLit v).map roundDouble

/-- Python `float * int`: the int is first converted to binary64, then the
product is rounded to binary64. -/
def pyFloatMulInt (x : ℚ) (k : ℕ) : ℚ :=
  roundDouble (x * roundDouble (k : ℚ))

/-- Python `int(float)`: truncation toward zero. -/
def pyTruncFloat (q : ℚ) : ℤ :=
  if 0 ≤ q then ratFloorZ q else -ratFloorZ (-q)

/-- `value[-1]` on a string (IndexError when empty). -/
def pyLastChar (v : String) : Except Err Char :=
  match v.data.getLast? with
  | some c => .ok c
  | none => .error (.indexError "string index out of range")

/-- `str.capitalize()` restricted to the single-character strings it is
applied to here (ASCII upcasing). -/
def pyCapitalizeChar (c : Char) : Char := c.toUpper

/-- `value[:-1]` on a string. -/
def pyDropLastChar (v : String) : String := ⟨v.data.dropLast⟩

/-- Lines 282-291, `get_disksize_real_value`: `str(int(value))` when `value`
parses as an int; otherwise match the (capitalized) last character against
`M`, `G`, `T` (milestone `n` giving multiplier `1000 ^ (n + 2)`) and return
`str(int(float(value[:-1]) * 1000 ** (n + 2)))`; re-raise the original
`ValueError` when no suffix matches. -/
def get_disksize_real_value (value : String) : Except Err String :=
  match pyIntParse value with
  | .ok n => .ok (pyStrOfInt n)
  | .error error => do
    let last ← pyLastChar value
    let c := pyCapitalizeChar last
    if c = 'M' then
      let x ← pyFloatParse (pyDropLastChar value)
      pure (pyStrOfInt (pyTruncFloat (pyFloatMulInt x (1000 ^ 2))))
    else if c = 'G' then
      let x ← pyFloatParse (pyDropLastChar value)
      pure (pyStrOfInt (pyTruncFloat (pyFloatMulInt x (1000 ^ 3))))
    else if c = 'T' then
      let x ← pyFloatParse (pyDropLastChar value)
      pure (pyStrOfInt (pyTruncFloat (pyFloatMulInt x (1000 ^ 4))))
    else
      .error error

/-- `self.get_disksize_real_value(partition["size"])` receives the config
value: strings are parsed; for an int `k`, `str(int(k))` succeeds directly
(sizes in configurations are strings or ints). -/
def get_disksize_real_value_val (value : PyVal) : Except Err String :=
  match value with
  | .str s => get_disksize_real_value s
  | .int k => .ok (pyStrOfInt k)
  | _ => .error (.typeError "int argument must be a string or a number")

/-! ### The `ConfigureMaasStorage` class -/

/-- A `ConfigureMaasStorage` instance: `__init__` (lines 26-28) sets exactly
`maas_user` and `node_id` (so reads of any other attribute, such as
`self.self` or `self.user_id`, raise AttributeError).  `disk_matcher`
stands for the spec-modelled pluggable disk-matching collaborator consumed
by `map_bucket_disks_to_machine_disks`; it is not a Python attribute. -/
structure Inst where
  maas_user : String
  node_id : String
  disk_matcher : PyVal → PyVal

/-- `subprocess.run(cmd, stdout=PIPE, stderr=STDOUT, check=False)`:
arguments must all be strings (a non-string raises TypeError before any
process is spawned); otherwise the command is recorded in the trace and the
next oracle response is consumed (an exhausted oracle answers success with
empty output). -/
def subprocess_run (cmd : List PyVal) : M Resp := fun s =>
  if cmd.all isStrVal then
    match s.responses with
    | [] => (.ok ⟨0, ""⟩, ⟨s.trace ++ [cmd], []⟩)
    | r :: rest => (.ok r, ⟨s.trace ++ [cmd], rest⟩)
  else
    (.error (.typeError "expected str argument"), s)

/-- Lines 30-38, `call_cmd`.  The `self._logger_info` / `self._logger_error`
calls are Modelled from the spec: logging helpers live on the device agent
outside src/ and the spec (§1) places logging out of scope, so they have no
effect here.  `ProvisioningError` is imported from
`snappy_device_agents.devices` (outside src/) and modelled as an `Err`
constructor.  On non-zero exit status the captured output is raised;
otherwise the method falls off its end, returning None (the docstring calls
it a "subprocess placeholder"). -/
def call_cmd (self : Inst) (cmd : List PyVal) : M PyVal := do
  let _ := self
  let proc ← subprocess_run cmd
  if proc.returncode ≠ 0 then
    throwE (.provisioningError proc.stdout)
  else
    pure PyVal.none

/-- `for x in v`: lists iterate their elements; None (and every other shape
reaching a `for` in this module) raises TypeError. -/
def pyIter (v : PyVal) (body : PyVal → M Unit) : M Unit :=
  match v with
  | .list xs => xs.forM body
  | _ => throwE (.typeError "object is not iterable")

/-- Lines 272-280, `read_blockdevices`. -/
def read_blockdevices (self : Inst) : M PyVal :=
  call_cmd self
    [.str "maas", .str self.maas_user, .str "block-devices", .str "read", .str self.node_id]

/-- Lines 40-89, `clear_storage_config`: read all block devices and iterate
them (the placeholder gateway returns None, so the iteration itself raises
TypeError); for each non-virtual device delete each of its partitions, and
if it carries a filesystem, unmount it when it has a mount point and then
unformat it twice — the source contains two consecutive unformat calls, the
first passing the raw `blockdevice["id"]`, the second `str(...)` of it. -/
def clear_storage_config (self : Inst) : M PyVal := do
  let blockdevice_set ← read_blockdevices self
  pyIter blockdevice_set (fun blockdevice => do
    let ty ← liftE (pySubscript blockdevice "type")
    if pyEqStrLit ty "virtual" then
      pure ()
    else do
      let parts ← liftE (pySubscript blockdevice "partitions")
      pyIter parts (fun partition => do
        let bid ← liftE (pySubscript blockdevice "id")
        let pid ← liftE (pySubscript partition "id")
        let _ ← call_cmd self
          [.str "maas", .str self.maas_user, .str "partition", .str "delete",
            .str self.node_id, .str (pyStrOfVal bid), .str (pyStrOfVal pid)]
        pure ())
      let fs ← liftE (pySubscript blockdevice "filesystem")
      if pyIsNone fs then
        pure ()
      else do
        let mp ← liftE (pySubscript fs "mount_point")
        if pyIsNone mp then
          pure ()
        else do
          let bid ← liftE (pySubscript blockdevice "id")
          let _ ← call_cmd self
            [.str "maas", .str self.maas_user, .str "block-device", .str "unmount",
              .str self.node_id, .str (pyStrOfVal bid)]
          pure ()
        let bid1 ← liftE (pySubscript blockdevice "id")
        let _ ← call_cmd self
          [.str "maas", .str self.maas_user, .str "block-device", .str "unformat",
            .str self.node_id, bid1]
        let bid2 ← liftE (pySubscript blockdevice "id")
        let _ ← call_cmd self
          [.str "maas", .str self.maas_user, .str "block-device", .str "unformat",
            .str self.node_id, .str (pyStrOfVal bid2)]
        pure ())
  pure PyVal.none

/-- Lines 91-102, `mount_blockdevice`. -/
def mount_blockdevice (self : Inst) (blockdevice_id mount_point : PyVal) : M PyVal :=
  call_cmd self
    [.str "maas", .str self.maas_user, .str "block-device", .str "mount",
      .str self.node_id, blockdevice_id, .str ("mount_point=" ++ pyStrOfVal mount_point)]

/-- Lines 104-116, `mount_partition`. -/
def mount_partition (self : Inst) (blockdevice_id partition_id mount_point : PyVal) : M PyVal :=
  call_cmd self
    [.str "maas", .str self.maas_user, .str "partition", .str "mount",
      .str self.node_id, blockdevice_id, partition_id,
      .str ("mount_point=" ++ pyStrOfVal mount_point)]

/-- Lines 118-131, `format_partition`. -/
def format_partition (self : Inst) (blockdevice_id partition_id fstype label : PyVal) : M PyVal :=
  call_cmd self
    [.str "maas", .str self.maas_user, .str "partition", .str "format",
      .str self.node_id, blockdevice_id, partition_id,
      .str ("fstype=" ++ pyStrOfVal fstype), .str ("label=" ++ pyStrOfVal label)]

/-- Lines 133-144, `create_partition` (`size=None` means no size argument). -/
def create_partition (self : Inst) (blockdevice_id : PyVal) (size : PyVal) : M PyVal :=
  call_cmd self
    ([.str "maas", .str self.maas_user, .str "partitions", .str "create",
      .str self.node_id, blockdevice_id] ++
      (if pyIsNone size then [] else [.str ("size=" ++ pyStrOfVal size)]))

/-- Lines 146-156, `set_boot_disk`. -/
def set_boot_disk (self : Inst) (blockdevice_id : PyVal) : M PyVal :=
  call_cmd self
    [.str "maas", .str self.maas_user, .str "block-device", .str "set-boot-disk",
      .str self.node_id, blockdevice_id]

/-- Lines 158-178, `update_blockdevice`. -/
def update_blockdevice (self : Inst) (blockdevice_id : PyVal)
    (opts : Option (List (String × PyVal))) : M PyVal :=
  call_cmd self
    ([.str "maas", .str self.maas_user, .str "block-device", .str "update",
      .str self.node_id, blockdevice_id] ++
      (match opts with
       | Option.none => []
       | Option.some kvs => kvs.map (fun kv => .str (kv.1 ++ "=" ++ pyStrOfVal kv.2))))

/-- Lines 180-192, `format_blockdevice`. -/
def format_blockdevice (self : Inst) (blockdevice_id fstype label : PyVal) : M PyVal :=
  call_cmd self
    [.str "maas", .str self.maas_user, .str "block-device", .str "format",
      .str self.node_id, blockdevice_id,
      .str ("fstype=" ++ pyStrOfVal fstype), .str ("label=" ++ pyStrOfVal label)]

/-- Lines 205-228: iterate the cache sets; unknown backing types raise a
plain Exception; a matching physical/partition backing identity returns
that cache set; otherwise None. -/
def get_cache_set_loop (blockdevice_id partition_id : PyVal) :
    List PyVal → Except Err PyVal
  | [] => .ok PyVal.none
  | cache_set :: rest => do
    let cache_device ← pySubscript cache_set "cache_device"
    let backing_type ← pySubscript cache_device "type"
    let backing_device_id ← pySubscript cache_device "id"
    if !(pyEqStrLit backing_type "physical" || pyEqStrLit backing_type "partition") then
      .error (.pyException ("Unknown backing device type " ++ pyStrOfVal backing_type))
    else if pyEqStrLit backing_type "physical" && pyEqV blockdevice_id backing_device_id then
      .ok cache_set
    else if pyEqStrLit backing_type "partition" && pyEqV partition_id backing_device_id then
      .ok cache_set
    else
      get_cache_set_loop blockdevice_id partition_id rest

/-- Lines 194-228, `get_cache_set`: read the cache sets (None from the
placeholder gateway, so the `for` raises TypeError) and scan them. -/
def get_cache_set (self : Inst) (blockdevice_id partition_id : PyVal) : M PyVal := do
  let cache_sets ← call_cmd self
    [.str "maas", .str self.maas_user, .str "bcache-cache-sets", .str "read",
      .str self.node_id]
  match cache_sets with
  | .list css => liftE (get_cache_set_loop blockdevice_id partition_id css)
  | _ => throwE (.typeError "object is not iterable")

/-- Lines 230-242, `create_cache_set`. -/
def create_cache_set (self : Inst) (blockdevice_id partition_id : PyVal) : M PyVal :=
  call_cmd self
    ([.str "maas", .str self.maas_user, .str "bcache-cache-sets", .str "create",
      .str self.node_id] ++
      (if !(pyIsNone blockdevice_id) then [.str ("cache_device=" ++ pyStrOfVal blockdevice_id)]
       else [.str ("cache_partition=" ++ pyStrOfVal partition_id)]))

/-- Lines 244-266, `create_bcache`. -/
def create_bcache (self : Inst) (name cache_set_id blockdevice_id partition_id cache_mode : PyVal) :
    M PyVal :=
  call_cmd self
    ([.str "maas", .str self.maas_user, .str "bcaches", .str "create",
      .str self.node_id, .str ("name=" ++ pyStrOfVal name),
      .str ("cache_set=" ++ pyStrOfVal cache_set_id),
      .str ("cache_mode=" ++ pyStrOfVal cache_mode)] ++
      (if !(pyIsNone blockdevice_id) then [.str ("backing_device=" ++ pyStrOfVal blockdevice_id)]
       else [.str ("backing_partition=" ++ pyStrOfVal partition_id)]))

/-- Lines 268-270, `read_bcaches`. -/
def read_bcaches (self : Inst) : M PyVal :=
  call_cmd self [.str "maas", .str self.maas_user, .str "bcaches", .str "read", .str self.node_id]

/-- Modelled from the spec: `entries_of_type` (the Entry Classifier, spec
§4.2) is called on `self` throughout but defined outside src/; per the spec
it returns the sub-sequence of entries whose `type` tag equals the given
kind, preserving relative order, silently ignoring entries of other or
missing kinds. -/
def entry_has_type (e : PyVal) (ty : String) : Bool :=
  match pyDictGet e (.str "type") with
  | Option.some (.str t) => t = ty
  | _ => false

def entries_of_type (disk_config : PyVal) (ty : String) : Except Err (List PyVal) :=
  match disk_config with
  | .list entries => .ok (entries.filter (fun e => entry_has_type e ty))
  | _ => .error (.typeError "object is not iterable")

/-- The key of `sorted(partitions, key=lambda k: k["number"])`; CPython
computes every key first, in input order (declared `number` fields are
ints; other shapes are not modelled, configurations do not use them). -/
def partition_number_key (p : PyVal) : Except Err ℤ := do
  let n ← pySubscript p "number"
  match n with
  | .int k => .ok k
  | _ => .error (.typeError "number field must be an int")

/-- Stable insertion: a new element goes after every already-placed element
whose key is less than or equal (Python `sorted` is documented stable). -/
def insertByKey (x : ℤ × PyVal) : List (ℤ × PyVal) → List (ℤ × PyVal)
  | [] => [x]
  | y :: ys => if y.1 ≤ x.1 then y :: insertByKey x ys else x :: y :: ys

/-- Line 297, `sorted(partitions, key=lambda k: k["number"])`: a stable
ascending sort by the declared partition number. -/
def sortByNumber (ps : List PyVal) : Except Err (List PyVal) := do
  let keyed ← ps.mapM (fun p => do
    let k ← partition_number_key p
    pure (k, p))
  pure ((keyed.foldl (fun acc x => insertByKey x acc) []).map Prod.snd)

/-- Lines 293-323, `partition_disks`: classify and sort partition entries by
`number`; for each, look up the parent device's backend id and normalize
the declared size (absent or falsy size means None); then
`self.create_partition(self.self.maas_user, self.node_id, str(disk_maas_id),
size=disksize_value)` evaluates `self.self` first — `ConfigureMaasStorage`
instances have no attribute `self` — so the first iteration raises
AttributeError before any backend call (the call would also pass two extra
positional arguments, and subscript `["id"]` of the None the placeholder
gateway returns). -/
def partition_disks (self : Inst) (disk_config disk_device_to_blockdevice : PyVal) : M PyVal := do
  let _ := self
  let partitions ← liftE (entries_of_type disk_config "partition")
  let sorted_partitions ← liftE (sortByNumber partitions)
  let partition_map ← sorted_partitions.foldlM
    (fun partition_map partition => do
      let dev ← liftE (pySubscript partition "device")
      let devRec ← liftE (pySubscriptV disk_device_to_blockdevice dev)
      let _disk_maas_id ← liftE (pySubscript devRec "id")
      -- logging.info("creating partition %s", partition["id"]): the argument
      -- subscript is evaluated; the logging itself has no effect
      let _log_id ← liftE (pySubscript partition "id")
      let _disksize_value ←
        (if !(pyDictContains partition (.str "size")) then
          pure PyVal.none
        else do
          let sz ← liftE (pySubscript partition "size")
          if !(pyTruthy sz) then
            pure PyVal.none
          else do
            let r ← liftE (get_disksize_real_value_val sz)
            pure (PyVal.str r))
      let _ := partition_map
      (throwE (.attributeError "self") : M PyVal))
    (PyVal.dict [])
  pure partition_map

/-- Lines 325-350, `update_disks`: for each disk entry, a truthy `boot`
attribute leads to `self.set_boot_disk(self.self.maas_user, ...)` and a
present `name` to `self.update_blockdevice(self.self.maas_user, ...)`; both
evaluate `self.self` first, which raises AttributeError.  A disk entry with
neither attribute is processed without effect. -/
def update_disks (self : Inst) (disk_config disk_device_to_blockdevice : PyVal) : M PyVal := do
  let _ := self
  let _ := disk_device_to_blockdevice
  let disks ← liftE (entries_of_type disk_config "disk")
  disks.forM (fun disk => do
    let boot_set ←
      (if pyDictContains disk (.str "boot") then do
        let b ← liftE (pySubscript disk "boot")
        pure (pyTruthy b)
      else
        pure false)
    if boot_set then
      (throwE (.attributeError "self") : M Unit)
    else
      pure ()
    if pyDictContains disk (.str "name") then
      (throwE (.attributeError "self") : M Unit)
    else
      pure ())
  pure PyVal.none

/-- Lines 360-366 (and the textually identical lines 377-385 for
`backing_device`): resolve a bcache device reference —
`partition_map.get(ref)` first; when a partition record is present use its
`partition_id` (leaving the block-device id None); only otherwise fall back
to `disk_device_to_blockdevice[ref]["id"]` (leaving the partition id None).
Returns the pair `(partition_id, blockdevice_id)`. -/
def bcache_resolve (partition_map disk_device_to_blockdevice ref : PyVal) :
    Except Err (PyVal × PyVal) := do
  match pyDictGet partition_map ref with
  | Option.some partition => do
    let partition_id ← pySubscript partition "partition_id"
    pure (partition_id, PyVal.none)
  | Option.none => do
    let devRec ← pySubscriptV disk_device_to_blockdevice ref
    let blockdevice_id ← pySubscript devRec "id"
    pure (PyVal.none, blockdevice_id)

/-- Lines 352-397, `setup_bcaches`: for each bcache entry, resolve
`cache_device` (partition map first, block-device map fallback), then
`self.get_cache_set(self.user_id, self.node_id, ...)` evaluates
`self.user_id` — no such attribute — raising AttributeError before any
backend call.  The rest of the loop (cache-set reuse or creation, the
`backing_device` resolution, `create_bcache`, and registration of the
resulting virtual device) is unreachable. -/
def setup_bcaches (self : Inst) (disk_config disk_device_to_blockdevice partition_map : PyVal) :
    M PyVal := do
  let _ := self
  let bcaches ← liftE (entries_of_type disk_config "bcache")
  bcaches.forM (fun bcache => do
    -- logging.info("setting up bcache %s on %s", bcache["id"], self.node_id):
    -- the argument subscript is evaluated; the logging itself has no effect
    let _log_id ← liftE (pySubscript bcache "id")
    let cache_device ← liftE (pySubscript bcache "cache_device")
    let _resolved ← liftE (bcache_resolve partition_map disk_device_to_blockdevice cache_device)
    (throwE (.attributeError "user_id") : M Unit))
  pure PyVal.none

/-- The result of the two-map resolution used by `apply_formats` and
`create_mounts`. -/
inductive Resolved where
  | partition (info : PyVal)
  | blockdevice (info : PyVal)

/-- Lines 406-407 / 416-417 (and 434-435 / 443-444 in `create_mounts`): a
membership test against the partition map decides the branch; the partition
branch subscripts the partition map, the fallback branch subscripts the
block-device map (where a missing id raises KeyError). -/
def resolve_volume (partition_map disk_device_to_blockdevice vol : PyVal) :
    Except Err Resolved :=
  if pyDictContains partition_map vol then
    (pySubscriptV partition_map vol).map Resolved.partition
  else
    (pySubscriptV disk_device_to_blockdevice vol).map Resolved.blockdevice

/-- Lines 399-424, `apply_formats`: for each format entry, resolve its
`volume` through the partition map with block-device fallback; both
branches then call a gateway method whose first argument is
`self.user_id` — no such attribute — so the first format entry raises
AttributeError before any backend call. -/
def apply_formats (self : Inst) (disk_config partition_map disk_device_to_blockdevice : PyVal) :
    M PyVal := do
  let _ := self
  let formats ← liftE (entries_of_type disk_config "format")
  formats.forM (fun _format => do
    -- logging.info("applying format %s", _format["id"]): the argument
    -- subscript is evaluated; the logging itself has no effect
    let _log_id ← liftE (pySubscript _format "id")
    let vol ← liftE (pySubscript _format "volume")
    let _resolved ← liftE (resolve_volume partition_map disk_device_to_blockdevice vol)
    (throwE (.attributeError "user_id") : M Unit))
  pure PyVal.none

/-- Line 433: `volume_name = mount["device"][:-7]  # strip _format`
(Python slicing clamps at zero for strings shorter than 7). -/
def mount_volume_name (device : PyVal) : Except Err PyVal :=
  match device with
  | .str d => .ok (.str ⟨d.data.take (d.data.length - 7)⟩)
  | _ => .error (.typeError "object is not subscriptable")

/-- Lines 426-450, `create_mounts`: for each mount entry, derive the volume
name by dropping the last seven characters of `device`, resolve it through
the partition map with block-device fallback; both branches then call a
mount gateway method whose first argument is `self.user_id` — no such
attribute — so the first mount entry raises AttributeError before any
backend call. -/
def create_mounts (self : Inst) (disk_config partition_map disk_device_to_blockdevice : PyVal) :
    M PyVal := do
  let _ := self
  let mounts ← liftE (entries_of_type disk_config "mount")
  mounts.forM (fun mount => do
    -- logging.info("applying mount %s", mount["id"]): the argument subscript
    -- is evaluated; the logging itself has no effect
    let _log_id ← liftE (pySubscript mount "id")
    let dev ← liftE (pySubscript mount "device")
    let volume_name ← liftE (mount_volume_name dev)
    let _resolved ← liftE (resolve_volume partition_map disk_device_to_blockdevice volume_name)
    (throwE (.attributeError "user_id") : M Unit))
  pure PyVal.none

/-- Modelled from the spec: `map_bucket_disks_to_machine_disks` (spec §4.5
stage 2, "Resolve existing disks") is called on `self` but defined outside
src/; the matching rule is a pluggable collaborator, represented by the
instance's `disk_matcher`. -/
def map_bucket_disks_to_machine_disks (self : Inst) (machine_info : PyVal) : M PyVal :=
  pure (self.disk_matcher machine_info)

/-- Modelled from the spec: `map_disk_device_to_blockdevice` (the Identifier
Map of spec §3) is called on `self` but defined outside src/; it maps each
configuration disk entry's id to the matched backend block-device record. -/
def map_disk_device_to_blockdevice (disk_config config_disk_to_blockdevice : PyVal) :
    Except Err PyVal := do
  let disks ← entries_of_type disk_config "disk"
  let kvs ← disks.foldlM
    (fun acc disk => do
      let did ← pySubscript disk "id"
      let record ← pySubscriptV config_disk_to_blockdevice did
      match did with
      | .str k => pure (acc ++ [(k, record)])
      | _ => pure acc)
    []
  pure (.dict kvs)

/-- Lines 452-491, `setup_storage`: set `self.node_id` from
`machine_info["self.node_id"]` (the literal key in the source), run Clear —
which raises TypeError iterating the None returned by the placeholder
gateway, right after the single block-devices read call — then build the
identifier maps, update disks, partition disks, and reach
`disk_device_to_blockdevice.update(raid_to_blockdevice)` where the name
`raid_to_blockdevice` is undefined (NameError); the closing
`setup_bcaches` / `apply_formats` / `create_mounts` calls each pass
`self.node_id` as an extra positional argument (TypeError).  No statement
anywhere in the method inspects `lvm_volgroup` or `lvm_partition`
entries. -/
def setup_storage (self : Inst) (machine_info config : PyVal) : M PyVal := do
  let nid ← liftE (pySubscriptV machine_info (.str "self.node_id"))
  let self := { self with node_id := pyStrOfVal nid }
  let _ ← clear_storage_config self
  let config_disk_to_blockdevice ← map_bucket_disks_to_machine_disks self machine_info
  let disks ← liftE (pySubscriptV config (.str "disks"))
  let disk_device_to_blockdevice ←
    liftE (map_disk_device_to_blockdevice disks config_disk_to_blockdevice)
  let _ ← update_disks self disks disk_device_to_blockdevice
  let _partition_map ← partition_disks self disks disk_device_to_blockdevice
  let _ ← (throwE (.nameError "raid_to_blockdevice") : M PyVal)
  let _ ← (throwE (.typeError "setup_bcaches takes 4 positional arguments but 5 were given") : M PyVal)
  let _ ← (throwE (.typeError "apply_formats takes 4 positional arguments but 5 were given") : M PyVal)
  let _ ← (throwE (.typeError "create_mounts takes 4 positional arguments but 5 were given") : M PyVal)
  pure PyVal.none

/-- The next pending oracle response (an exhausted oracle reads as a
successful empty response). -/
def headResp (s : S) : Resp := s.responses.headD ⟨0, ""⟩

/-! ### Properties of the binary64 model -/

theorem log2fuel_spec : ∀ fuel n, n ≤ fuel → 1 ≤ n →
    2 ^ log2fuel fuel n ≤ n ∧ n < 2 ^ (log2fuel fuel n + 1) := by
  intro fuel
  induction fuel with
  | zero => intro n h h1; omega
  | succ f ih =>
    intro n h h1
    show 2 ^ (if n ≥ 2 then log2fuel f (n / 2) + 1 else 0) ≤ n ∧
      n < 2 ^ ((if n ≥ 2 then log2fuel f (n / 2) + 1 else 0) + 1)
    by_cases h2 : n ≥ 2
    · have hd : n / 2 ≤ f := by omega

      have hd1 : 1 ≤ n / 2 := by omega
      obtain ⟨hl, hu⟩ := ih (n / 2) hd hd1
      rw [if_pos h2]
      constructor
      · calc 2 ^ (log2fuel f (n / 2) + 1) = 2 ^ log2fuel f (n / 2) * 2 := by ring
          _ ≤ n / 2 * 2 := by omega
          _ ≤ n := by omega
      · calc n < (n / 2 + 1) * 2 := by omega
          _ ≤ 2 ^ (log2fuel f (n / 2) + 1) * 2 := by
              have : n / 2 + 1 ≤ 2 ^ (log2fuel f (n / 2) + 1) := by omega
              omega
          _ = 2 ^ (log2fuel f (n / 2) + 1 + 1) := by ring
    · rw [if_neg h2]
      omega

theorem nlog2_spec (n : ℕ) (h : 1 ≤ n) :
    2 ^ nlog2 n ≤ n ∧ n < 2 ^ (nlog2 n + 1) :=
  log2fuel_spec n n le_rfl h

theorem nlog2_one : nlog2 1 = 0 := rfl

theorem ratFloorZ_intCast (z : ℤ) : ratFloorZ ((z : ℚ)) = z := by
  unfold ratFloorZ
  rw [Rat.num_intCast, Rat.den_intCast]
  rcases z with m | m <;> simp [Int.ediv, Nat.div_one]

theorem roundHalfEven_intCast (z : ℤ) : roundHalfEven ((z : ℚ)) = z := by
  unfold roundHalfEven
  rw [ratFloorZ_intCast, sub_self]
  norm_num

theorem roundHalfEven_natCast (n : ℕ) : roundHalfEven ((n : ℚ)) = n := by
  have h : ((n : ℚ)) = (((n : ℤ) : ℚ)) := by push_cast; ring
  rw [h, roundHalfEven_intCast]

theorem qlog2floor_natCast (n : ℕ) (h : 1 ≤ n) : qlog2floor ((n : ℚ)) = nlog2 n := by
  unfold qlog2floor
  rw [Rat.num_natCast, Rat.den_natCast]
  have hab : (n : ℤ).natAbs = n := Int.natAbs_ofNat n
  rw [hab, nlog2_one]
  have hcond : 2 ^ 0 * n ≥ 2 ^ nlog2 n * 1 := by
    have := (nlog2_spec n h).1
    simpa using this
  rw [if_pos hcond]
  simp

theorem pyAbs_natCast (n : ℕ) : pyAbs ((n : ℚ)) = ((n : ℚ)) := by
  unfold pyAbs
  rw [if_neg (not_lt.mpr (by positivity))]

/-- `roundDouble` is the identity on natural numbers below `2 ^ 53`
(they are exactly representable in binary64). -/
theorem roundDouble_natCast (n : ℕ) (h : n < 2 ^ 53) : roundDouble ((n : ℚ)) = n := by
  rcases Nat.eq_zero_or_pos n with h0 | h1
  · subst h0; simp [roundDouble]
  have he52 : nlog2 n ≤ 52 := by
    by_contra hgt
    have h53 : 53 ≤ nlog2 n := by omega
    have hp : (2 : ℕ) ^ 53 ≤ 2 ^ nlog2 n := Nat.pow_le_pow_right (by norm_num) h53
    have := (nlog2_spec n h1).1
    omega
  have heZ : ((nlog2 n : ℤ)) ≤ 52 := by exact_mod_cast he52
  have htoNat : ((52 : ℤ) - nlog2 n).toNat = 52 - nlog2 n := by omega
  have hmlt : n * 2 ^ (52 - nlog2 n) < 2 ^ 53 := by
    have hu := (nlog2_spec n h1).2
    calc n * 2 ^ (52 - nlog2 n) < 2 ^ (nlog2 n + 1) * 2 ^ (52 - nlog2 n) :=
          (Nat.mul_lt_mul_right (Nat.pos_pow_of_pos _ (by norm_num))).mpr hu
      _ = 2 ^ (nlog2 n + 1 + (52 - nlog2 n)) := (Nat.pow_add 2 (nlog2 n + 1) (52 - nlog2 n)).symm
      _ = 2 ^ 53 := by congr 1; omega
  have hmant : roundMant (pyAbs ((n : ℚ))) (qlog2floor (pyAbs ((n : ℚ)))) =
      ((n * 2 ^ (52 - nlog2 n) : ℕ) : ℤ) := by
    rw [pyAbs_natCast, qlog2floor_natCast n h1]
    unfold roundMant
    rw [if_pos heZ, htoNat]
    have hcast : ((n : ℚ)) * (((2 ^ (52 - nlog2 n) : ℕ) : ℚ)) =
        (((n * 2 ^ (52 - nlog2 n) : ℕ) : ℚ)) := by push_cast; ring
    rw [hcast, roundHalfEven_natCast]
  have hq0 : ((n : ℚ)) ≠ 0 := by positivity
  have hm53 : roundMant (pyAbs ((n : ℚ))) (qlog2floor (pyAbs ((n : ℚ)))) ≠ 2 ^ 53 := by
    rw [hmant]
    have hc : ((n * 2 ^ (52 - nlog2 n) : ℕ) : ℤ) < 2 ^ 53 := by exact_mod_cast hmlt
    omega
  unfold roundDouble
  rw [if_neg hq0, if_neg hm53, hmant, pyAbs_natCast, qlog2floor_natCast n h1]
  unfold mkDouble
  rw [if_pos heZ, if_neg (not_lt.mpr (by positivity) : ¬ ((n : ℚ)) < 0), htoNat]
  have h2ne : (((2 ^ (52 - nlog2 n) : ℕ) : ℚ)) ≠ 0 := by positivity
  push_cast
  field_simp

theorem ratFloorZ_natCast (n : ℕ) : ratFloorZ ((n : ℚ)) = n := by
  have h : ((n : ℚ)) = (((n : ℤ) : ℚ)) := by push_cast; ring
  rw [h, ratFloorZ_intCast]

theorem pyTruncFloat_natCast (n : ℕ) : pyTruncFloat ((n : ℚ)) = n := by
  unfold pyTruncFloat
  rw [if_pos (by positivity : (0 : ℚ) ≤ ((n : ℚ))), ratFloorZ_natCast]

theorem pyStrOfInt_natCast (n : ℕ) : pyStrOfInt ((n : ℤ)) = pyStrOfNat n := by
  unfold pyStrOfInt
  rw [if_neg (by omega : ¬ ((n : ℤ)) < 0), Int.natAbs_ofNat]

/-- When the int is exactly representable and so is the product, the modelled
float multiplication is exact. -/
theorem pyFloatMulInt_exact (n k : ℕ) (hk : k < 2 ^ 53) (hp : n * k < 2 ^ 53) :
    pyFloatMulInt ((n : ℚ)) k = (((n * k : ℕ) : ℚ)) := by
  unfold pyFloatMulInt
  rw [roundDouble_natCast k hk]
  have h : ((n : ℚ)) * ((k : ℚ)) = (((n * k : ℕ) : ℚ)) := by push_cast; ring
  rw [h, roundDouble_natCast _ hp]

/-! ### Parser lemmas -/

theorem not_space_of_digit (c : Char) (h : c.isDigit = true) : isPySpace c = false := by
  simp only [Char.isDigit, Bool.and_eq_true, decide_eq_true_eq] at h
  simp only [isPySpace, decide_eq_false_iff_not]
  rintro (rfl | rfl | rfl | rfl | rfl | rfl) <;> revert h <;> decide

theorem ne_plus_of_digit (c : Char) (h : c.isDigit = true) : c ≠ '+' := by
  rintro rfl; revert h; decide

theorem ne_minus_of_digit (c : Char) (h : c.isDigit = true) : c ≠ '-' := by
  rintro rfl; revert h; decide

theorem dropWhile_space_digits (l : List Char) (h : ∀ c ∈ l, c.isDigit = true) :
    l.dropWhile isPySpace = l := by
  cases l with
  | nil => rfl
  | cons c t =>
    have hc := not_space_of_digit c (h c (by simp))
    simp [List.dropWhile_cons, hc]

theorem pyStripChars_digits (l : List Char) (h : ∀ c ∈ l, c.isDigit = true) :
    pyStripChars l = l := by
  unfold pyStripChars
  rw [dropWhile_space_digits l h]
  rw [dropWhile_space_digits l.reverse (by intro c hc; exact h c (List.mem_reverse.mp hc))]
  exact l.reverse_reverse

theorem pyStripChars_digits_push (l : List Char) (c : Char)
    (hl : ∀ x ∈ l, x.isDigit = true) (hne : l ≠ []) (hc : isPySpace c = false) :
    pyStripChars (l ++ [c]) = l ++ [c] := by
  unfold pyStripChars
  have hfront : (l ++ [c]).dropWhile isPySpace = l ++ [c] := by
    cases l with
    | nil => exact absurd rfl hne
    | cons a t =>
      have ha := not_space_of_digit a (hl a (by simp))
      simp [List.dropWhile_cons, ha]
  rw [hfront, List.reverse_append]
  simp only [List.reverse_cons, List.reverse_nil, List.nil_append, List.singleton_append]
  rw [List.dropWhile_cons, hc]
  simp

theorem pySignSplit_digits (l : List Char) (h : ∀ c ∈ l, c.isDigit = true) :
    pySignSplit l = (1, l) := by
  unfold pySignSplit
  cases l with
  | nil => rfl
  | cons c t =>
    have hp := ne_plus_of_digit c (h c (by simp))
    have hm := ne_minus_of_digit c (h c (by simp))
    simp [hp, hm]

theorem takeWhile_digits (l : List Char) (h : ∀ c ∈ l, c.isDigit = true) :
    l.takeWhile Char.isDigit = l := by
  induction l with
  | nil => rfl
  | cons c t ih =>
    have hct := h c (by simp)
    have iht := ih (by intro x hx; exact h x (by simp [hx]))
    simp [List.takeWhile_cons, hct, iht]

theorem dropWhile_digits (l : List Char) (h : ∀ c ∈ l, c.isDigit = true) :
    l.dropWhile Char.isDigit = [] := by
  induction l with
  | nil => rfl
  | cons c t ih =>
    have hct := h c (by simp)
    have iht := ih (by intro x hx; exact h x (by simp [hx]))
    simp [List.dropWhile_cons, hct, iht]

theorem pyIntParse_digits (s : String) (hne : s.data ≠ [])
    (hdig : ∀ c ∈ s.data, c.isDigit = true) :
    pyIntParse s = .ok ((decVal s.data : ℤ)) := by
  simp only [pyIntParse]
  rw [pyStripChars_digits s.data hdig, pySignSplit_digits s.data hdig]
  have hall : s.data.all Char.isDigit = true := List.all_eq_true.mpr hdig
  simp only [hall, hne, ne_eq, not_false_iff, and_self, if_true]
  norm_num

theorem str_push_data (s : String) (c : Char) : (s.push c).data = s.data ++ [c] := rfl

theorem pyIntParse_push_nondigit (s : String) (c : Char) (hne : s.data ≠ [])
    (hdig : ∀ x ∈ s.data, x.isDigit = true)
    (hc : c.isDigit = false) (hcs : isPySpace c = false) :
    pyIntParse (s.push c) =
      .error (.valueError ("invalid literal for int with base 10: " ++ (s.push c))) := by
  simp only [pyIntParse]
  rw [str_push_data, pyStripChars_digits_push s.data c hdig hne hcs]
  have hsign : pySignSplit (s.data ++ [c]) = (1, s.data ++ [c]) := by
    unfold pySignSplit
    cases hd : s.data with
    | nil => exact absurd hd hne
    | cons a t =>
      have hp := ne_plus_of_digit a (hdig a (by simp [hd]))
      have hm := ne_minus_of_digit a (hdig a (by simp [hd]))
      simp [hp, hm]
  rw [hsign]
  have hall : (s.data ++ [c]).all Char.isDigit = false := by
    simp [List.all_append, hc]
  simp [hall]

theorem pyLastChar_push (s : String) (c : Char) : pyLastChar (s.push c) = .ok c := by
  unfold pyLastChar
  rw [str_push_data, List.getLast?_concat]

theorem pyDropLastChar_push (s : String) (c : Char) : pyDropLastChar (s.push c) = s := by
  unfold pyDropLastChar
  rw [str_push_data, List.dropLast_concat]

theorem pyFloatLit_digits (s : String) (hne : s.data ≠ [])
    (hdig : ∀ c ∈ s.data, c.isDigit = true) :
    pyFloatLit s = .ok ((decVal s.data : ℚ)) := by
  simp only [pyFloatLit]
  rw [pyStripChars_digits s.data hdig, pySignSplit_digits s.data hdig]
  simp only [takeWhile_digits s.data hdig, dropWhile_digits s.data hdig]
  simp [hne]
  rfl

theorem pyFloatParse_digits (s : String) (hne : s.data ≠ [])
    (hdig : ∀ c ∈ s.data, c.isDigit = true) :
    pyFloatParse s = .ok (roundDouble ((decVal s.data : ℚ))) := by
  unfold pyFloatParse
  rw [pyFloatLit_digits s hne hdig]
  rfl

theorem except_bind_ok {α β : Type} (a : α) (f : α → Except Err β) :
    (Except.ok a >>= f) = f a := rfl

/-- The suffix path of `get_disksize_real_value` on a digit string followed by
one unit letter, when every intermediate float value is exactly
representable. -/
theorem get_disksize_push_suffix (s : String) (hne : s.data ≠ [])
    (hdig : ∀ x ∈ s.data, x.isDigit = true)
    (c : Char) (expo : ℕ)
    (hc : c.isDigit = false) (hcs : isPySpace c = false)
    (hcase : (pyCapitalizeChar c = 'M' ∧ expo = 2) ∨
      (pyCapitalizeChar c ≠ 'M' ∧ pyCapitalizeChar c = 'G' ∧ expo = 3) ∨
      (pyCapitalizeChar c ≠ 'M' ∧ pyCapitalizeChar c ≠ 'G' ∧ pyCapitalizeChar c = 'T' ∧ expo = 4))
    (hlt : decVal s.data * 1000 ^ expo < 2 ^ 53) :
    get_disksize_real_value (s.push c) = .ok (pyStrOfNat (decVal s.data * 1000 ^ expo)) := by
  have hn53 : decVal s.data < 2 ^ 53 := by
    have h1 : decVal s.data * 1 ≤ decVal s.data * 1000 ^ expo :=
      Nat.mul_le_mul_left _ (Nat.one_le_pow _ _ (by norm_num))
    omega
  have hkexp : (1000 : ℕ) ^ expo < 2 ^ 53 := by
    rcases hcase with ⟨_, rfl⟩ | ⟨_, _, rfl⟩ | ⟨_, _, _, rfl⟩ <;> norm_num
  have hfloat :
      (do
        let x ← pyFloatParse (pyDropLastChar (s.push c))
        pure (pyStrOfInt (pyTruncFloat (pyFloatMulInt x (1000 ^ expo))))
        : Except Err String) =
      .ok (pyStrOfNat (decVal s.data * 1000 ^ expo)) := by
    rw [pyDropLastChar_push, pyFloatParse_digits s hne hdig, except_bind_ok,
      roundDouble_natCast _ hn53, pyFloatMulInt_exact _ _ hkexp hlt,
      pyTruncFloat_natCast]
    have hcast : (((decVal s.data * 1000 ^ expo : ℕ) : ℤ)) =
        ((decVal s.data * 1000 ^ expo : ℕ) : ℤ) := rfl
    rw [pyStrOfInt_natCast]
    rfl
  simp only [get_disksize_real_value]
  rw [pyIntParse_push_nondigit s c hne hdig hc hcs]
  simp only []
  rw [pyLastChar_push, except_bind_ok]
  rcases hcase with ⟨hM, rfl⟩ | ⟨hnM, hG, rfl⟩ | ⟨hnM, hnG, hT, rfl⟩
  · rw [if_pos hM]
    exact hfloat
  · rw [if_neg hnM, if_pos hG]
    exact hfloat
  · rw [if_neg hnM, if_neg hnG, if_pos hT]
    exact hfloat

/-! ### The monad, evaluated -/

theorem M_bind_eval {α β : Type} (x : M α) (f : α → M β) (s : S) :
    (x >>= f) s =
      match x s with
      | (Except.ok a, s') => f a s'
      | (Except.error e, s') => (Except.error e, s') := rfl

theorem M_pure_eval {α : Type} (a : α) (s : S) : (pure a : M α) s = (.ok a, s) := rfl

/-! ### Claim theorems -/

/-- C5: `call_cmd` raises a ProvisioningError carrying the backend's
captured combined stdout/stderr if and only if the backend process exits
with a non-zero status (first conjunct, an exact description of its result
on any all-string command and any oracle state); and the stage methods do
not catch it — shown for the Clear stage, the one stage that reaches a
backend call, whose result is exactly that ProvisioningError whenever the
first backend exit status is non-zero (second conjunct). -/
theorem call_cmd_raises_iff_nonzero :
    (∀ (self : Inst) (cmd : List PyVal) (s : S), cmd.all isStrVal = true →
      (call_cmd self cmd s).1 =
        if (headResp s).returncode ≠ 0 then
          Except.error (.provisioningError (headResp s).stdout)
        else
          Except.ok PyVal.none) ∧
    (∀ (self : Inst) (s : S), (headResp s).returncode ≠ 0 →
      (clear_storage_config self s).1 =
        Except.error (.provisioningError (headResp s).stdout)) := by
  constructor
  · intro self cmd s hcmd
    rcases s with ⟨tr, rs⟩
    cases rs with
    | nil =>
      simp [call_cmd, M_bind_eval, M_pure_eval, subprocess_run, hcmd, headResp, throwE]
    | cons r rest =>
      by_cases hr : r.returncode = 0 <;>
        simp [call_cmd, M_bind_eval, M_pure_eval, subprocess_run, hcmd, headResp, throwE, hr]
  · intro self s hnz
    rcases s with ⟨tr, rs⟩
    cases rs with
    | nil => simp [headResp] at hnz
    | cons r rest =>
      simp only [headResp, List.headD_cons] at hnz ⊢
      simp [clear_storage_config, read_blockdevices, call_cmd, M_bind_eval, M_pure_eval,
        subprocess_run, isStrVal, throwE, hnz]

/-- C5 witness: a concrete non-zero backend exit; the command raises
ProvisioningError carrying the captured output, and Clear propagates it. -/
theorem call_cmd_raises_iff_nonzero_witness :
    (call_cmd ⟨"admin", "node1", fun _ => PyVal.none⟩ [.str "maas"] ⟨[], [⟨2, "boom"⟩]⟩).1 =
      Except.error (.provisioningError "boom") ∧
    (clear_storage_config ⟨"admin", "node1", fun _ => PyVal.none⟩ ⟨[], [⟨2, "boom"⟩]⟩).1 =
      Except.error (.provisioningError "boom") := by
  constructor
  · rw [call_cmd_raises_iff_nonzero.1 ⟨"admin", "node1", fun _ => PyVal.none⟩
      [.str "maas"] ⟨[], [⟨2, "boom"⟩]⟩ (by decide)]
    rfl
  · exact call_cmd_raises_iff_nonzero.2 ⟨"admin", "node1", fun _ => PyVal.none⟩
      ⟨[], [⟨2, "boom"⟩]⟩ (by decide)

/-- C4: in the bcache stage (both `cache_device` and `backing_device` go
through `bcache_resolve`), the format stage, and the mount stage (both
through `resolve_volume`, the mount stage after deriving the volume id by
stripping `_format`), an id present in the Partition Map resolves to its
partition record — independently of the Block Device Map — and only an id
absent from the Partition Map falls back to the Block Device Map. -/
theorem resolution_prefers_partition_map :
    (∀ (kvs : List (String × PyVal)) (ddtb ddtb2 : PyVal) (k : String) (v : PyVal),
      kvs.lookup k = some v →
        resolve_volume (.dict kvs) ddtb (.str k) = .ok (.partition v) ∧
        resolve_volume (.dict kvs) ddtb (.str k) = resolve_volume (.dict kvs) ddtb2 (.str k) ∧
        (∀ pid, pySubscript v "partition_id" = .ok pid →
          bcache_resolve (.dict kvs) ddtb (.str k) = .ok (pid, PyVal.none)) ∧
        mount_volume_name (.str (k ++ "_format")) = .ok (.str k)) ∧
    (∀ (kvs : List (String × PyVal)) (ddtb : PyVal) (k : String),
      kvs.lookup k = none →
        resolve_volume (.dict kvs) ddtb (.str k) =
          (pySubscriptV ddtb (.str k)).map Resolved.blockdevice ∧
        bcache_resolve (.dict kvs) ddtb (.str k) =
          (do
            let devRec ← pySubscriptV ddtb (.str k)
            let blockdevice_id ← pySubscript devRec "id"
            pure (PyVal.none, blockdevice_id))) := by
  have hmount : ∀ k : String, mount_volume_name (.str (k ++ "_format")) = .ok (.str k) := by
    intro k
    simp only [mount_volume_name]
    have hdata : (k ++ "_format").data = k.data ++ "_format".data := String.data_append k _
    have hlen : (k.data ++ "_format".data).length - 7 = k.data.length := by
      simp [List.length_append]
    rw [hdata, hlen, List.take_left]
  constructor
  · intro kvs ddtb ddtb2 k v hv
    have hcont : pyDictContains (.dict kvs) (.str k) = true := by
      simp [pyDictContains, pyDictGet, hv]
    have hsub : pySubscriptV (.dict kvs) (.str k) = .ok v := by
      simp [pySubscriptV, hv]
    refine ⟨?_, ?_, ?_, hmount k⟩
    · simp [resolve_volume, hcont, hsub, Except.map]
    · simp [resolve_volume, hcont, hsub]
    · intro pid hpid
      simp [bcache_resolve, pyDictGet, hv, hpid]
  · intro kvs ddtb k hv
    have hcont : pyDictContains (.dict kvs) (.str k) = false := by
      simp [pyDictContains, pyDictGet, hv]
    constructor
    · simp [resolve_volume, hcont]
    · simp [bcache_resolve, pyDictGet, hv]

/-- C4 witness: an id present in both maps resolves as a partition in every
stage, ignoring the block-device map; an absent id falls back. -/
theorem resolution_prefers_partition_map_witness :
    resolve_volume (.dict [("part0", .dict [("partition_id", .int 7)])])
        (.dict [("part0", .dict [("id", .int 5)])]) (.str "part0") =
      .ok (.partition (.dict [("partition_id", .int 7)])) ∧
    bcache_resolve (.dict [("part0", .dict [("partition_id", .int 7)])])
        (.dict [("part0", .dict [("id", .int 5)])]) (.str "part0") =
      .ok (.int 7, PyVal.none) ∧
    mount_volume_name (.str ("part0" ++ "_format")) = .ok (.str "part0") ∧
    resolve_volume (.dict []) (.dict [("disk0", .dict [("id", .int 5)])]) (.str "disk0") =
      .ok (.blockdevice (.dict [("id", .int 5)])) := by
  have h := resolution_prefers_partition_map.1
    [("part0", .dict [("partition_id", .int 7)])]
    (.dict [("part0", .dict [("id", .int 5)])])
    (.dict []) "part0" (.dict [("partition_id", .int 7)]) (by rfl)
  have h2 := resolution_prefers_partition_map.2 []
    (.dict [("disk0", .dict [("id", .int 5)])]) "disk0" (by rfl)
  exact ⟨h.1, h.2.2.1 (.int 7) (by rfl), h.2.2.2, by rw [h2.1]; rfl⟩

/-- C2 (amended): for every size string of decimal digits, the normalizer
returns the canonical decimal representation of its integer value (so the
value is returned unscaled; a leading-zero spelling is canonicalized by
`str(int(...))`); and for every digit string `n` followed by a
case-insensitive suffix `M`/`G`/`T`, whenever `n × 10^(6|9|12) < 2^53` (so
that the intermediate binary64 float arithmetic is exact) the normalizer
returns the integer string `n × 10^(6|9|12)` — decimal powers, not binary
powers.  (The unrestricted original claim fails: for values whose product
is not exactly representable in binary64, the result differs — see the
counterexample.) -/
theorem get_disksize_real_value_amended (s : String) (hne : s.data ≠ [])
    (hdig : ∀ x ∈ s.data, x.isDigit = true) :
    get_disksize_real_value s = .ok (pyStrOfNat (decVal s.data)) ∧
    ∀ (c : Char) (k : ℕ),
      (((c = 'M' ∨ c = 'm') ∧ k = 6) ∨ ((c = 'G' ∨ c = 'g') ∧ k = 9) ∨
        ((c = 'T' ∨ c = 't') ∧ k = 12)) →
      decVal s.data * 10 ^ k < 2 ^ 53 →
      get_disksize_real_value (s.push c) = .ok (pyStrOfNat (decVal s.data * 10 ^ k)) := by
  constructor
  · simp only [get_disksize_real_value]
    rw [pyIntParse_digits s hne hdig]
    simp only []
    rw [pyStrOfInt_natCast]
  · intro c k hck hlt
    have hM : (1000 : ℕ) ^ 2 = 10 ^ 6 := by norm_num
    have hG : (1000 : ℕ) ^ 3 = 10 ^ 9 := by norm_num
    have hT : (1000 : ℕ) ^ 4 = 10 ^ 12 := by norm_num
    rcases hck with ⟨hcc, rfl⟩ | ⟨hcc, rfl⟩ | ⟨hcc, rfl⟩
    · rw [← hM] at hlt ⊢
      rcases hcc with rfl | rfl <;>
        exact get_disksize_push_suffix s hne hdig _ 2 (by decide) (by decide) (by decide) hlt
    · rw [← hG] at hlt ⊢
      rcases hcc with rfl | rfl <;>
        exact get_disksize_push_suffix s hne hdig _ 3 (by decide) (by decide) (by decide) hlt
    · rw [← hT] at hlt ⊢
      rcases hcc with rfl | rfl <;>
        exact get_disksize_push_suffix s hne hdig _ 4 (by decide) (by decide) (by decide) hlt

/-- C2 witness: a bare integer is returned unchanged and the spec's own
example, `"10G"`, normalizes to `"10000000000"`. -/
theorem get_disksize_real_value_amended_witness :
    get_disksize_real_value "10" = .ok "10" ∧
    get_disksize_real_value "10G" = .ok "10000000000" := by
  have h := get_disksize_real_value_amended "10" (by decide) (by decide)
  constructor
  · rw [h.1]
    rfl
  · have h2 := h.2 'G' 9 (by decide) (by decide)
    have hs : ("10" : String).push 'G' = "10G" := rfl
    rw [hs] at h2
    rw [h2]
    rfl

attribute [local semireducible] Rat.add Rat.mul Rat.sub Rat.inv

set_option maxRecDepth 40000 in
/-- C2 counterexample: the claim promises `n × 10^9` for every integer `n`
with a `G` suffix, so `"9007199254740993G"` should give
`"9007199254740993000000000"`; the code computes
`int(float("9007199254740993") * 1000 ** 3)`, and `9007199254740993 = 2^53 + 1`
rounds to `2^53` in binary64 (ties to even), so it returns
`"9007199254740992000000000"` instead (checked against CPython). -/
theorem get_disksize_real_value_counterexample :
    get_disksize_real_value "9007199254740993G" = .ok "9007199254740992000000000" ∧
    pyStrOfNat (9007199254740993 * 10 ^ 9) = "9007199254740993000000000" ∧
    "9007199254740992000000000" ≠ "9007199254740993000000000" := by
  refine ⟨rfl, rfl, by decide⟩

/-- C3: the Partition stage never creates any partition: classification and
the (stable) sort by `number` succeed, but the first loop iteration
evaluates `self.self.maas_user` and raises AttributeError (the instance has
no attribute `self`) before any backend call — the trace stays empty — so
partition-create calls are not issued in `number` order (or at all).  Shown
on a single-partition configuration whose parent device resolves. -/
theorem partition_disks_attribute_error :
    partition_disks ⟨"admin", "node1", fun _ => PyVal.none⟩
      (.list [.dict [("type", .str "partition"), ("id", .str "part0"),
        ("device", .str "disk0"), ("number", .int 1), ("size", .str "2G")]])
      (.dict [("disk0", .dict [("id", .int 10)])])
      ⟨[], []⟩ =
    (.error (.attributeError "self"), ⟨[], []⟩) := rfl

/-- C10: even the stable-sort guarantee is moot — on two partition entries
with the same declared `number`, the sort succeeds (stably) but the first
loop iteration raises AttributeError (`self.self`) before any
partition-create call, so no backend partition is created in any order. -/
theorem partition_disks_equal_numbers_attribute_error :
    partition_disks ⟨"admin", "node1", fun _ => PyVal.none⟩
      (.list [.dict [("type", .str "partition"), ("id", .str "partA"),
          ("device", .str "disk0"), ("number", .int 1)],
        .dict [("type", .str "partition"), ("id", .str "partB"),
          ("device", .str "disk0"), ("number", .int 1)]])
      (.dict [("disk0", .dict [("id", .int 10)])])
      ⟨[], []⟩ =
    (.error (.attributeError "self"), ⟨[], []⟩) := rfl

/-- C9: the Mount stage derives the volume id (`"part0_format"[:-7]` is
`"part0"`) and resolves it in the Partition Map, but then evaluates
`self.user_id` — no such attribute — and raises AttributeError before
issuing any mount call: the trace stays empty. -/
theorem create_mounts_attribute_error :
    create_mounts ⟨"admin", "node1", fun _ => PyVal.none⟩
      (.list [.dict [("type", .str "mount"), ("id", .str "mount0"),
        ("device", .str "part0_format"), ("path", .str "/data")]])
      (.dict [("part0", .dict [("partition_id", .int 77), ("blockdevice_id", .int 10)])])
      (.dict [])
      ⟨[], []⟩ =
    (.error (.attributeError "user_id"), ⟨[], []⟩) := rfl

/-- C8: the Clear stage crashes on every machine: `read_blockdevices`
returns the None of the placeholder gateway (even on a zero exit status
with backend output available), and iterating it raises TypeError — so on
an already-cleared machine Clear does issue zero delete/unmount/unformat
calls, but by crashing after the single read, not by completing; and the
embedded loop body (dead code) contains two consecutive unformat calls per
formatted device, not one. -/
theorem clear_storage_config_crashes :
    clear_storage_config ⟨"admin", "node1", fun _ => PyVal.none⟩ ⟨[], [⟨0, "[]"⟩]⟩ =
    (.error (.typeError "object is not iterable"),
      ⟨[[.str "maas", .str "admin", .str "block-devices", .str "read", .str "node1"]], []⟩) := rfl

/-- C6: on a zero backend exit status every gateway operation returns None —
`call_cmd` is a placeholder with no return statement — not the backend's
structured description of the resource; `get_cache_set`, which tries to
iterate the result of its read, therefore raises TypeError. -/
theorem gateway_returns_none :
    read_blockdevices ⟨"admin", "node1", fun _ => PyVal.none⟩ ⟨[], [⟨0, "block device listing"⟩]⟩ =
      (.ok PyVal.none,
        ⟨[[.str "maas", .str "admin", .str "block-devices", .str "read", .str "node1"]], []⟩) ∧
    create_partition ⟨"admin", "node1", fun _ => PyVal.none⟩ (.str "10") (.str "2000000000")
        ⟨[], [⟨0, "created partition record"⟩]⟩ =
      (.ok PyVal.none,
        ⟨[[.str "maas", .str "admin", .str "partitions", .str "create", .str "node1",
          .str "10", .str "size=2000000000"]], []⟩) ∧
    create_cache_set ⟨"admin", "node1", fun _ => PyVal.none⟩ (.str "10") PyVal.none
        ⟨[], [⟨0, "created cache set"⟩]⟩ =
      (.ok PyVal.none,
        ⟨[[.str "maas", .str "admin", .str "bcache-cache-sets", .str "create", .str "node1",
          .str "cache_device=10"]], []⟩) ∧
    create_bcache ⟨"admin", "node1", fun _ => PyVal.none⟩ (.str "bcache0") (.int 1)
        (.str "10") PyVal.none (.str "writeback") ⟨[], [⟨0, "created bcache"⟩]⟩ =
      (.ok PyVal.none,
        ⟨[[.str "maas", .str "admin", .str "bcaches", .str "create", .str "node1",
          .str "name=bcache0", .str "cache_set=1", .str "cache_mode=writeback",
          .str "backing_device=10"]], []⟩) ∧
    read_bcaches ⟨"admin", "node1", fun _ => PyVal.none⟩ ⟨[], [⟨0, "bcache listing"⟩]⟩ =
      (.ok PyVal.none,
        ⟨[[.str "maas", .str "admin", .str "bcaches", .str "read", .str "node1"]], []⟩) ∧
    get_cache_set ⟨"admin", "node1", fun _ => PyVal.none⟩ PyVal.none (.int 3)
        ⟨[], [⟨0, "cache set listing"⟩]⟩ =
      (.error (.typeError "object is not iterable"),
        ⟨[[.str "maas", .str "admin", .str "bcache-cache-sets", .str "read", .str "node1"]],
          []⟩) :=
  ⟨rfl, rfl, rfl, rfl, rfl, rfl⟩

/-- C1: the end-to-end run on the claim's four-entry configuration issues
only the single block-devices read call of the Clear stage and then raises
TypeError (iterating the None returned by the placeholder gateway): none of
the claimed clear / partition-create (`size=2000000000`) / format / mount
calls is ever issued. -/
theorem setup_storage_crashes_before_partitioning :
    setup_storage ⟨"admin", "node-init", fun _ => PyVal.none⟩
      (.dict [("self.node_id", .str "node0")])
      (.dict [("disks", .list
        [.dict [("type", .str "disk"), ("id", .str "disk0")],
         .dict [("type", .str "partition"), ("id", .str "part0"),
           ("device", .str "disk0"), ("number", .int 1), ("size", .str "2G")],
         .dict [("type", .str "format"), ("id", .str "format0"), ("volume", .str "part0"),
           ("fstype", .str "ext4"), ("label", .str "data")],
         .dict [("type", .str "mount"), ("id", .str "mount0"),
           ("device", .str "part0_format"), ("path", .str "/data")]])])
      ⟨[], [⟨0, "existing block devices"⟩]⟩ =
    (.error (.typeError "object is not iterable"),
      ⟨[[.str "maas", .str "admin", .str "block-devices", .str "read", .str "node0"]], []⟩) := rfl

/-- C7: `setup_storage` contains no LVM stage at all — on a configuration
with `lvm_volgroup` and `lvm_partition` entries the run issues only the
Clear stage's read call and crashes (TypeError on the placeholder None);
no volume-group or logical-volume call appears in the trace, and even the
unreachable remainder of the method never inspects LVM entries (it reaches
the undefined name `raid_to_blockdevice` between the partition and bcache
stages instead). -/
theorem setup_storage_no_lvm_stage :
    setup_storage ⟨"admin", "node-init", fun _ => PyVal.none⟩
      (.dict [("self.node_id", .str "node7")])
      (.dict [("disks", .list
        [.dict [("type", .str "disk"), ("id", .str "disk0")],
         .dict [("type", .str "lvm_volgroup"), ("id", .str "vg0"), ("name", .str "vg0"),
           ("devices", .list [.str "disk0"])],
         .dict [("type", .str "lvm_partition"), ("id", .str "lv0"), ("name", .str "lv0"),
           ("volgroup", .str "vg0"), ("size", .str "4G")]])])
      ⟨[], [⟨0, "existing block devices"⟩]⟩ =
    (.error (.typeError "object is not iterable"),
      ⟨[[.str "maas", .str "admin", .str "block-devices", .str "read", .str "node7"]], []⟩) := rfl

end MaasStorage
